import Mathlib

/-!
# Verification of the wasm-docker-gateway HTTP framing core

Shallow embedding of the request/response framing engine shared by
`gateway_native/src/main.rs` and `gateway_host/src/main.rs` (the two files
are line-for-line identical on the embedded functions except for the
`GATEWAY_VARIANT` constant, which is therefore taken as a parameter), plus
the transform of `gateway_wasm/src/main.rs`.

Bytes are modelled as `Char` (one `Char` per byte; the code only ever
manipulates heads after a UTF-8 check, and bodies are opaque byte lists, so
list length stands for byte length).  Rust `&str`/`Vec<u8>` values become
`List Char`; fallible functions return `Except String` carrying the same
error messages as the `anyhow!` calls in the source.
-/

namespace Gateway

/-- The CRLF separator, `"\r\n"`. -/
def crlf : List Char := ['\r', '\n']

/-- `MAX_HEADER_BYTES` from the source: 64 KiB ceiling on the header block. -/
def MAX_HEADER_BYTES : Nat := 64 * 1024

/-- `MAX_BODY_BYTES` (`MAX_REQ_BODY_BYTES` in the host variant):
2 MiB ceiling on a request body. -/
def MAX_BODY_BYTES : Nat := 2 * 1024 * 1024

/-- `GATEWAY_VARIANT` of `gateway_native`. -/
def nativeVariant : List Char := "native".toList

/-- `GATEWAY_VARIANT` of `gateway_host`. -/
def hostVariant : List Char := "wasm-host".toList

/-- Rust `char::to_ascii_lowercase`: lowercases ASCII letters only. -/
def asciiLower (c : Char) : Char :=
  if 'A' ≤ c ∧ c ≤ 'Z' then Char.ofNat (c.toNat + 32) else c

/-- Rust `str::to_ascii_lowercase` on our byte lists. -/
def lowerStr (s : List Char) : List Char := s.map asciiLower

/-- Rust `str::split("\r\n")`: splits at every (leftmost, non-overlapping)
occurrence of CRLF; always yields at least one piece. -/
def splitCRLF : List Char → List (List Char)
  | '\r' :: '\n' :: rest => [] :: splitCRLF rest
  | c :: rest =>
    match splitCRLF rest with
    | [] => [[c]]
    | p :: ps => (c :: p) :: ps
  | [] => [[]]

/-- Rust `str::split_whitespace` (single accumulating pass): maximal runs of
non-whitespace characters, whitespace runs discarded.  `cur` holds the
characters of the current token in reverse. -/
def splitWSAux : List Char → List Char → List (List Char)
  | cur, [] => if cur = [] then [] else [cur.reverse]
  | cur, c :: rest =>
    if c.isWhitespace then
      if cur = [] then splitWSAux [] rest
      else cur.reverse :: splitWSAux [] rest
    else splitWSAux (c :: cur) rest

/-- Rust `str::split_whitespace`. -/
def splitWS (s : List Char) : List (List Char) := splitWSAux [] s

/-- Rust `str::trim` (whitespace stripped from both ends). -/
def trimChars (s : List Char) : List Char :=
  ((s.dropWhile Char.isWhitespace).reverse.dropWhile Char.isWhitespace).reverse

/-- Rust `str::parse::<usize>`: optional leading `+`, then at least one ASCII
digit and nothing else; fails on overflow past `usize::MAX` (the gateway
targets are 64-bit, so `usize` is 64 bits wide). -/
def parseUsize (s : List Char) : Option Nat :=
  let t := match s with
    | '+' :: r => r
    | _ => s
  if t = [] then none
  else if t.all Char.isDigit then
    let n := t.foldl (fun acc c => acc * 10 + (c.toNat - 48)) 0
    if n < 2 ^ 64 then some n else none
  else none

/-- Decimal rendering of a `usize`, as Rust `format!("{}")` produces it. -/
def natDigs (n : Nat) : List Char := Nat.toDigits 10 n

/-- `find_double_crlf`: index of the first 4-byte window equal to
`"\r\n\r\n"` (Rust `buf.windows(4).position(|w| w == b"\r\n\r\n")`). -/
def find_double_crlf : List Char → Option Nat
  | '\r' :: '\n' :: '\r' :: '\n' :: _ => some 0
  | _ :: rest => (find_double_crlf rest).map (· + 1)
  | [] => none

/-- `RequestLine` from the source: parsed request head. -/
structure RequestLine where
  method : List Char
  path : List Char
  version : List Char
  content_length : Nat
deriving DecidableEq, Repr

/-- Lowercased `"content-length:"` prefix matched by the header scan. -/
def clPrefix : List Char := "content-length:".toList

/-- The header-scanning loop of `parse_request_head`: walks the header lines
in order; every line whose ASCII-lowercase form starts with
`content-length:` overwrites the accumulator with its parsed value, and an
unparsable value aborts with the `invalid Content-Length` error. -/
def contentLengthFold : Nat → List (List Char) → Except String Nat
  | acc, [] => .ok acc
  | acc, line :: rest =>
    let lower := lowerStr line
    if clPrefix.isPrefixOf lower then
      match parseUsize (trimChars (lower.drop clPrefix.length)) with
      | some n => contentLengthFold n rest
      | none => .error "invalid Content-Length"
    else contentLengthFold acc rest

/-- `parse_request_head` from the source: splits the head at CRLF, takes
method/target/version as the first three whitespace tokens of the first
line (extra tokens are never examined), then scans the remaining lines for
`Content-Length`. -/
def parse_request_head (head : List Char) : Except String RequestLine :=
  match splitCRLF head with
  | [] => .error "empty request"
  | request_line :: rest =>
    match splitWS request_line with
    | [] => .error "missing method"
    | [_] => .error "missing path"
    | [_, _] => .error "missing version"
    | method :: path :: version :: _ =>
      match contentLengthFold 0 rest with
      | .error e => .error e
      | .ok cl => .ok ⟨method, path, version, cl⟩

/-- First line of a head block (the request line / status line slot). -/
def firstLine (head : List Char) : List Char := (splitCRLF head).headD []

/-- Header lines of a head block: every CRLF-separated line after the first. -/
def headerLines (head : List Char) : List (List Char) := (splitCRLF head).tail

/-- Does this header line carry the `Content-Length` name (the scan's
case-insensitive prefix test)? -/
def isCLLine (l : List Char) : Bool := clPrefix.isPrefixOf (lowerStr l)

/-- The value a `Content-Length` line's trimmed value parses to. -/
def clValue (l : List Char) : Option Nat :=
  parseUsize (trimChars ((lowerStr l).drop clPrefix.length))

/-- The `Content-Length` lines of a header-line sequence, in order. -/
def clLines (L : List (List Char)) : List (List Char) := L.filter isCLLine

/-- Value left in the scan's accumulator after a run of all-parsable header
lines: the last `Content-Length` line wins, the start value if none. -/
def lastCLVal (acc : Nat) (L : List (List Char)) : Nat :=
  match (clLines L).getLast? with
  | none => acc
  | some l => (clValue l).getD 0

theorem splitCRLF_ne_nil (s : List Char) : splitCRLF s ≠ [] := by
  rw [splitCRLF.eq_def]
  split
  · simp
  · split <;> simp
  · simp

theorem splitCRLF_eq_cons (s : List Char) :
    splitCRLF s = firstLine s :: headerLines s := by
  cases h : splitCRLF s with
  | nil => exact absurd h (splitCRLF_ne_nil s)
  | cons a l => simp [firstLine, headerLines, h]

theorem contentLengthFold_allSome :
    ∀ (L : List (List Char)) (acc : Nat),
      (∀ l ∈ L, isCLLine l → (clValue l).isSome) →
      contentLengthFold acc L = .ok (lastCLVal acc L) := by
  intro L
  induction L with
  | nil => intro acc _; simp [contentLengthFold, lastCLVal, clLines]
  | cons l rest ih =>
    intro acc hgood
    by_cases hcl : isCLLine l
    · obtain ⟨n, hn⟩ := Option.isSome_iff_exists.mp (hgood l (by simp) hcl)
      have hstep : contentLengthFold acc (l :: rest) = contentLengthFold n rest := by
        simp only [contentLengthFold]
        rw [show clPrefix.isPrefixOf (lowerStr l) = true from hcl]
        simp only [if_true]
        rw [show parseUsize (trimChars ((lowerStr l).drop clPrefix.length)) = some n from hn]
      rw [hstep, ih n (fun l' hl' => hgood l' (by simp [hl']))]
      have hlast : lastCLVal n rest = lastCLVal acc (l :: rest) := by
        simp only [lastCLVal, clLines, List.filter_cons, hcl, if_true]
        cases h2 : List.filter isCLLine rest with
        | nil => simp [clValue] at hn ⊢; simp [hn]
        | cons q qs =>
          rw [List.getLast?_cons_cons,
            List.getLast?_eq_getLast (q :: qs) (by simp)]
      rw [hlast]
    · have hstep : contentLengthFold acc (l :: rest) = contentLengthFold acc rest := by
        simp only [contentLengthFold]
        rw [show clPrefix.isPrefixOf (lowerStr l) = false from (Bool.eq_false_iff.mpr hcl)]
        simp
      rw [hstep, ih acc (fun l' hl' => hgood l' (by simp [hl']))]
      simp only [lastCLVal, clLines, List.filter_cons, hcl]
      simp

theorem contentLengthFold_ok_iff :
    ∀ (L : List (List Char)) (acc : Nat),
      (∃ n, contentLengthFold acc L = .ok n) ↔
        ∀ l ∈ L, isCLLine l → (clValue l).isSome := by
  intro L
  induction L with
  | nil => intro acc; simp [contentLengthFold]
  | cons l rest ih =>
    intro acc
    constructor
    · intro ⟨n, hn⟩ l' hl' hcl'
      by_cases hcl : isCLLine l
      · cases hv : parseUsize (trimChars ((lowerStr l).drop clPrefix.length)) with
        | none =>
          exfalso
          simp only [contentLengthFold] at hn
          rw [show clPrefix.isPrefixOf (lowerStr l) = true from hcl] at hn
          simp only [if_true] at hn
          rw [hv] at hn
          exact Except.noConfusion hn
        | some m =>
          rcases List.mem_cons.mp hl' with rfl | hmem
          · simp [clValue, hv]
          · refine (ih m).mp ⟨n, ?_⟩ l' hmem hcl'
            simp only [contentLengthFold] at hn
            rw [show clPrefix.isPrefixOf (lowerStr l) = true from hcl] at hn
            simp only [if_true] at hn
            rw [hv] at hn
            exact hn
      · rcases List.mem_cons.mp hl' with rfl | hmem
        · exact absurd hcl' hcl
        · refine (ih acc).mp ⟨n, ?_⟩ l' hmem hcl'
          simp only [contentLengthFold] at hn
          rw [show clPrefix.isPrefixOf (lowerStr l) = false from
            (Bool.eq_false_iff.mpr hcl)] at hn
          simpa using hn
    · intro hgood
      exact ⟨_, contentLengthFold_allSome _ acc hgood⟩

theorem contentLengthFold_error_eq :
    ∀ (L : List (List Char)) (acc : Nat) (e : String),
      contentLengthFold acc L = .error e → e = "invalid Content-Length" := by
  intro L
  induction L with
  | nil => intro acc e h; simp [contentLengthFold] at h
  | cons l rest ih =>
    intro acc e h
    simp only [contentLengthFold] at h
    by_cases hcl : clPrefix.isPrefixOf (lowerStr l)
    · rw [hcl] at h
      simp only [if_true] at h
      cases hv : parseUsize (trimChars ((lowerStr l).drop clPrefix.length)) with
      | none => rw [hv] at h; exact (Except.error.inj h).symm
      | some m => rw [hv] at h; exact ih m e h
    · rw [Bool.eq_false_iff.mpr hcl] at h
      simp only [Bool.false_eq_true, if_false] at h
      exact ih acc e h

theorem parse_request_head_eq (head : List Char)
    (m p v : List Char) (ts : List (List Char))
    (hw : splitWS (firstLine head) = m :: p :: v :: ts) :
    parse_request_head head =
      match contentLengthFold 0 (headerLines head) with
      | .error e => .error e
      | .ok cl => .ok ⟨m, p, v, cl⟩ := by
  unfold parse_request_head
  rw [splitCRLF_eq_cons head]
  dsimp only
  rw [hw]

/-- C9 (amended): `parse_request_head` succeeds on a head if and only if its
first line splits into at least three whitespace-separated tokens and every
`Content-Length` header line's value parses; extra tokens after the third
are ignored, not rejected. -/
theorem parse_head_success_iff (head : List Char) :
    (∃ r, parse_request_head head = .ok r) ↔
      3 ≤ (splitWS (firstLine head)).length ∧
        ∀ l ∈ headerLines head, isCLLine l → (clValue l).isSome := by
  cases hw : splitWS (firstLine head) with
  | nil =>
    unfold parse_request_head
    rw [splitCRLF_eq_cons head]
    dsimp only
    rw [hw]
    simp
  | cons m t1 =>
    cases t1 with
    | nil =>
      unfold parse_request_head
      rw [splitCRLF_eq_cons head]
      dsimp only
      rw [hw]
      simp
    | cons p t2 =>
      cases t2 with
      | nil =>
        unfold parse_request_head
        rw [splitCRLF_eq_cons head]
        dsimp only
        rw [hw]
        simp
      | cons v ts =>
        rw [parse_request_head_eq head m p v ts hw]
        constructor
        · intro ⟨r, hr⟩
          refine ⟨by simp, ?_⟩
          cases hf : contentLengthFold 0 (headerLines head) with
          | error e => rw [hf] at hr; exact Except.noConfusion hr
          | ok n => exact (contentLengthFold_ok_iff _ 0).mp ⟨n, hf⟩
        · intro ⟨_, hgood⟩
          rw [contentLengthFold_allSome _ 0 hgood]
          exact ⟨_, rfl⟩

/-- C9 witness: a well-formed request line with parsable headers parses. -/
theorem parse_head_success_iff_witness :
    ∃ r, parse_request_head ("GET /x HTTP/1.1\r\nHost: a".toList) = .ok r :=
  (parse_head_success_iff _).mpr (by decide)

/-- C9 counterexample: a first line with four whitespace tokens is accepted
(the extra token is ignored), not rejected as the claim states. -/
theorem parse_head_extra_tokens_accepted :
    parse_request_head ("GET / HTTP/1.1 EXTRA".toList) =
      .ok ⟨"GET".toList, "/".toList, "HTTP/1.1".toList, 0⟩ := rfl

/-- C6: a head whose request line is well formed but whose `Content-Length`
value does not parse as a non-negative integer is rejected with the
`invalid Content-Length` error. -/
theorem parse_head_invalid_content_length_fails (head : List Char)
    (htok : 3 ≤ (splitWS (firstLine head)).length)
    (hbad : ∃ l ∈ headerLines head, isCLLine l ∧ clValue l = none) :
    parse_request_head head = .error "invalid Content-Length" := by
  obtain ⟨m, p, v, ts, hw⟩ :
      ∃ m p v ts, splitWS (firstLine head) = m :: p :: v :: ts := by
    cases hsp : splitWS (firstLine head) with
    | nil => rw [hsp] at htok; simp at htok
    | cons a t1 =>
      cases t1 with
      | nil => rw [hsp] at htok; simp at htok
      | cons b t2 =>
        cases t2 with
        | nil => rw [hsp] at htok; simp at htok
        | cons c t3 => exact ⟨a, b, c, t3, rfl⟩
  rw [parse_request_head_eq head m p v ts hw]
  have hnotok : ¬ ∃ n, contentLengthFold 0 (headerLines head) = .ok n := by
    rw [contentLengthFold_ok_iff]
    intro hgood
    obtain ⟨l, hl, hcl, hv⟩ := hbad
    have := hgood l hl hcl
    rw [hv] at this
    exact Bool.noConfusion this
  cases hf : contentLengthFold 0 (headerLines head) with
  | error e =>
    rw [contentLengthFold_error_eq _ 0 e hf]
  | ok n => exact absurd ⟨n, hf⟩ hnotok

/-- C6 witness: `Content-Length: abc` is rejected. -/
theorem parse_head_invalid_content_length_fails_witness :
    parse_request_head ("GET / HTTP/1.1\r\nContent-Length: abc".toList) =
      .error "invalid Content-Length" :=
  parse_head_invalid_content_length_fails _ (by decide) (by decide)

/-- C5 counterexample: on a head whose `Content-Length` value is unparsable,
`parse_request_head` does not succeed with derived length 0 — it fails. -/
theorem parse_head_unparsable_content_length_not_zero :
    parse_request_head ("POST / HTTP/1.1\r\nContent-Length: 12x".toList) =
      .error "invalid Content-Length" := rfl

/-- C5 (amended): only a MISSING `Content-Length` header is treated as
length 0 (given a well-formed request line); an unparsable value instead
fails with the `invalid Content-Length` error. -/
theorem parse_head_missing_content_length_zero (head : List Char)
    (htok : 3 ≤ (splitWS (firstLine head)).length)
    (hnone : ∀ l ∈ headerLines head, isCLLine l = false) :
    ∃ r, parse_request_head head = .ok r ∧ r.content_length = 0 := by
  obtain ⟨m, p, v, ts, hw⟩ :
      ∃ m p v ts, splitWS (firstLine head) = m :: p :: v :: ts := by
    cases hsp : splitWS (firstLine head) with
    | nil => rw [hsp] at htok; simp at htok
    | cons a t1 =>
      cases t1 with
      | nil => rw [hsp] at htok; simp at htok
      | cons b t2 =>
        cases t2 with
        | nil => rw [hsp] at htok; simp at htok
        | cons c t3 => exact ⟨a, b, c, t3, rfl⟩
  rw [parse_request_head_eq head m p v ts hw]
  have hgood : ∀ l ∈ headerLines head, isCLLine l → (clValue l).isSome := by
    intro l hl hcl
    rw [hnone l hl] at hcl
    exact Bool.noConfusion hcl
  rw [contentLengthFold_allSome _ 0 hgood]
  refine ⟨_, rfl, ?_⟩
  have hfil : clLines (headerLines head) = [] := by
    simp only [clLines, List.filter_eq_nil_iff]
    intro l hl
    simp [hnone l hl]
  simp [lastCLVal, hfil]

/-- C5 amended-claim witness: a head with no `Content-Length` line parses
with derived length 0. -/
theorem parse_head_missing_content_length_zero_witness :
    ∃ r, parse_request_head ("GET / HTTP/1.1\r\nHost: a".toList) = .ok r ∧
      r.content_length = 0 :=
  parse_head_missing_content_length_zero _ (by decide) (by decide)

/-- C10: when several `Content-Length` lines are present and all of them
parse, `parse_request_head` succeeds and the derived length is the value of
the LAST such line — each later occurrence overwrites earlier ones. -/
theorem parse_head_last_content_length_wins (head : List Char)
    (htok : 3 ≤ (splitWS (firstLine head)).length)
    (hgood : ∀ l ∈ headerLines head, isCLLine l → (clValue l).isSome)
    (l : List Char) (hlast : (clLines (headerLines head)).getLast? = some l) :
    ∃ r, parse_request_head head = .ok r ∧ some r.content_length = clValue l := by
  obtain ⟨m, p, v, ts, hw⟩ :
      ∃ m p v ts, splitWS (firstLine head) = m :: p :: v :: ts := by
    cases hsp : splitWS (firstLine head) with
    | nil => rw [hsp] at htok; simp at htok
    | cons a t1 =>
      cases t1 with
      | nil => rw [hsp] at htok; simp at htok
      | cons b t2 =>
        cases t2 with
        | nil => rw [hsp] at htok; simp at htok
        | cons c t3 => exact ⟨a, b, c, t3, rfl⟩
  rw [parse_request_head_eq head m p v ts hw]
  rw [contentLengthFold_allSome _ 0 hgood]
  refine ⟨_, rfl, ?_⟩
  have hmem : l ∈ headerLines head :=
    List.mem_of_mem_filter (List.mem_of_mem_getLast? hlast)
  have hcl : isCLLine l := List.of_mem_filter (List.mem_of_mem_getLast? hlast)
  obtain ⟨n, hn⟩ := Option.isSome_iff_exists.mp (hgood l hmem hcl)
  simp [lastCLVal, hlast, hn]

/-- C10 witness: of two `Content-Length` lines (5 then 7), the last wins. -/
theorem parse_head_last_content_length_wins_witness :
    ∃ r, parse_request_head
        ("POST / HTTP/1.1\r\nContent-Length: 5\r\nContent-Length: 7".toList) =
          .ok r ∧
      some r.content_length =
        clValue ("Content-Length: 7".toList) :=
  parse_head_last_content_length_wins _ (by decide) (by decide) _ (by decide)

/-- Rust `str::trim_end_matches('/')`: strips every trailing slash. -/
def trimEndSlash (s : List Char) : List Char :=
  (s.reverse.dropWhile (fun c => c = '/')).reverse

/-- Rust `str::trim_start_matches('/')`: strips every leading slash. -/
def trimStartSlash (s : List Char) : List Char :=
  s.dropWhile (fun c => c = '/')

/-- `Upstream` from the source: parsed upstream target. -/
structure Upstream where
  host : List Char
  port : Nat
  base_path : List Char
  raw_url : List Char

/-- The forwarded-target computation of `build_forwarded_request` (the
`forwarded_path` let-binding). -/
def forwardedPath (base_path path : List Char) : List Char :=
  if base_path = [] ∨ base_path = ['/'] then path
  else trimEndSlash base_path ++ '/' :: trimStartSlash path

/-- The header-drop test of `build_forwarded_request`: lines whose
ASCII-lowercase form starts with `host:` or `connection:` are skipped. -/
def isReqDroppedLine (l : List Char) : Bool :=
  ("host:".toList).isPrefixOf (lowerStr l) ||
    ("connection:".toList).isPrefixOf (lowerStr l)

/-- `build_forwarded_request` from the source: new request line with the
rebased target, the original header lines minus `Host`/`Connection` (and
minus empty lines), a fresh `Host` and `Connection: close`, the head
terminator, and the original body. -/
def build_forwarded_request (req : RequestLine) (original_head body : List Char)
    (upstream : Upstream) : List Char :=
  req.method ++ ' ' :: forwardedPath upstream.base_path req.path ++
      ' ' :: req.version ++ crlf ++
    ((splitCRLF original_head).drop 1).foldr
      (fun line acc =>
        if line = [] then acc
        else if isReqDroppedLine line then acc
        else line ++ crlf ++ acc) [] ++
    ("Host: ".toList ++ upstream.host ++ crlf) ++
    ("Connection: close".toList ++ crlf) ++
    crlf ++ body

/-- Join head lines back with CRLF after each line (the serialized form a
head block takes before the terminating blank line). -/
def joinCRLF (L : List (List Char)) : List Char :=
  L.foldr (fun l acc => l ++ crlf ++ acc) []

theorem joinCRLF_cons (a : List Char) (A : List (List Char)) :
    joinCRLF (a :: A) = a ++ crlf ++ joinCRLF A := rfl

theorem foldr_filter_joinCRLF (P : List Char → Bool) (L : List (List Char)) :
    L.foldr (fun line acc =>
        if line = [] then acc
        else if P line then acc
        else line ++ crlf ++ acc) [] =
      joinCRLF (L.filter (fun l => !(l = []) && !P l)) := by
  induction L with
  | nil => rfl
  | cons l rest ih =>
    simp only [List.append_assoc] at ih ⊢
    simp only [List.foldr_cons, List.filter_cons]
    by_cases h0 : l = []
    · simp [h0, ih]
    · by_cases hp : P l
      · simp [h0, hp, ih]
      · simp [h0, hp, ih, joinCRLF_cons, List.append_assoc]

theorem joinCRLF_append (A B : List (List Char)) :
    joinCRLF (A ++ B) = joinCRLF A ++ joinCRLF B := by
  induction A with
  | nil => rfl
  | cons a A ih => simp [joinCRLF, List.foldr_cons, List.append_assoc] at ih ⊢; simp [ih]

/-- C3: the forwarded target of `build_forwarded_request`: the emitted
request line carries exactly the rebased target; an empty or root base path
leaves the original target verbatim, any other base path is prefixed with
its trailing slash stripped, a single `/`, and the target's leading slash
stripped; base `/v1` with target `/users?x=1` yields `/v1/users?x=1`. -/
theorem forwarded_target_correct (req : RequestLine) (head body : List Char)
    (up : Upstream) :
    (∃ rest, build_forwarded_request req head body up =
        req.method ++ ' ' :: forwardedPath up.base_path req.path ++
          ' ' :: req.version ++ crlf ++ rest) ∧
    (up.base_path = [] ∨ up.base_path = ['/'] →
      forwardedPath up.base_path req.path = req.path) ∧
    (¬(up.base_path = [] ∨ up.base_path = ['/']) →
      forwardedPath up.base_path req.path =
        trimEndSlash up.base_path ++ '/' :: trimStartSlash req.path) ∧
    forwardedPath ("/v1".toList) ("/users?x=1".toList) = "/v1/users?x=1".toList := by
  refine ⟨?_, ?_, ?_, by decide⟩
  · refine ⟨((splitCRLF head).drop 1).foldr
        (fun line acc =>
          if line = [] then acc
          else if isReqDroppedLine line then acc
          else line ++ crlf ++ acc) [] ++
      ("Host: ".toList ++ up.host ++ crlf) ++
      ("Connection: close".toList ++ crlf) ++ crlf ++ body, ?_⟩
    simp [build_forwarded_request, List.append_assoc]
  · intro h; simp [forwardedPath, h]
  · intro h; simp [forwardedPath, h]

/-- C3 witness: the rebasing branch at base `/v1`, target `/users?x=1`. -/
theorem forwarded_target_correct_witness :
    forwardedPath ("/v1".toList) ("/users?x=1".toList) =
      trimEndSlash ("/v1".toList) ++ '/' :: trimStartSlash ("/users?x=1".toList) :=
  (forwarded_target_correct ⟨"GET".toList, "/users?x=1".toList, "HTTP/1.1".toList, 0⟩
    [] [] ⟨"h".toList, 80, "/v1".toList, "u".toList⟩).2.2.1 (by decide)

/-- C7: the forwarded request is exactly the new request line, every
original header line whose name is not case-insensitively `Host` or
`Connection` (those two dropped unconditionally), a fresh
`Host: <upstream host>` (no port), `Connection: close`, the head
terminator, and the original body bytes unmodified. -/
theorem build_forwarded_request_shape (req : RequestLine) (head body : List Char)
    (up : Upstream) (hne : ∀ l ∈ headerLines head, l ≠ []) :
    build_forwarded_request req head body up =
      joinCRLF ((req.method ++ ' ' :: forwardedPath up.base_path req.path ++
          ' ' :: req.version) ::
        ((headerLines head).filter (fun l => !isReqDroppedLine l) ++
          ["Host: ".toList ++ up.host, "Connection: close".toList])) ++
        crlf ++ body := by
  have hdrop : (splitCRLF head).drop 1 = headerLines head := by
    rw [splitCRLF_eq_cons head]; rfl
  have hfil : (headerLines head).filter (fun l => !(l = []) && !isReqDroppedLine l) =
      (headerLines head).filter (fun l => !isReqDroppedLine l) := by
    apply List.filter_congr
    intro l hl
    simp [hne l hl]
  unfold build_forwarded_request
  rw [hdrop, foldr_filter_joinCRLF, hfil, joinCRLF_cons, joinCRLF_append]
  simp [joinCRLF, List.append_assoc]

/-- C7 witness: a concrete request with `Host`/`Connection` lines dropped. -/
theorem build_forwarded_request_shape_witness :
    (∀ l ∈ headerLines ("POST /a HTTP/1.1\r\nHost: me\r\nX-Y: 1\r\nConnection: keep-alive".toList),
        l ≠ []) ∧
      build_forwarded_request ⟨"POST".toList, "/a".toList, "HTTP/1.1".toList, 2⟩
          ("POST /a HTTP/1.1\r\nHost: me\r\nX-Y: 1\r\nConnection: keep-alive".toList)
          ("zz".toList) ⟨"up".toList, 80, [], "http://up".toList⟩ =
        joinCRLF (("POST".toList ++ ' ' :: forwardedPath []
            ("/a".toList) ++ ' ' :: "HTTP/1.1".toList) ::
          ((headerLines ("POST /a HTTP/1.1\r\nHost: me\r\nX-Y: 1\r\nConnection: keep-alive".toList)).filter
              (fun l => !isReqDroppedLine l) ++
            ["Host: ".toList ++ "up".toList, "Connection: close".toList])) ++
          crlf ++ "zz".toList :=
  ⟨by decide,
    build_forwarded_request_shape ⟨"POST".toList, "/a".toList, "HTTP/1.1".toList, 2⟩
      _ _ ⟨"up".toList, 80, [], "http://up".toList⟩ (by decide)⟩

/-- The reserved-header test of `rebuild_response_with_extra_headers`: a
response line is dropped when its ASCII-lowercase form starts with any of
the six gateway-owned header names. -/
def isRespDroppedLine (l : List Char) : Bool :=
  ("content-length:".toList).isPrefixOf (lowerStr l) ||
  ("connection:".toList).isPrefixOf (lowerStr l) ||
  ("x-gateway-variant:".toList).isPrefixOf (lowerStr l) ||
  ("x-gateway-workload:".toList).isPrefixOf (lowerStr l) ||
  ("x-upstream-url:".toList).isPrefixOf (lowerStr l) ||
  ("x-upstream-status:".toList).isPrefixOf (lowerStr l)

/-- `build_response` from the source: status line, optional `Content-Type`,
the two gateway identity headers, caller extras, fresh `Content-Length`,
`Connection: close`, terminator, body. -/
def build_response (variant : List Char) (status_line body workload : List Char)
    (content_type : Option (List Char))
    (extra_headers : List (List Char × List Char)) : List Char :=
  status_line ++ crlf ++
    (match content_type with
      | some ct => "Content-Type: ".toList ++ ct ++ crlf
      | none => []) ++
    ("X-Gateway-Variant: ".toList ++ variant ++ crlf) ++
    ("X-Gateway-Workload: ".toList ++ workload ++ crlf) ++
    (extra_headers.foldr (fun nv acc => nv.1 ++ ": ".toList ++ nv.2 ++ crlf ++ acc) []) ++
    ("Content-Length: ".toList ++ natDigs body.length ++ crlf) ++
    ("Connection: close".toList ++ crlf ++ crlf) ++ body

/-- `rebuild_response_with_extra_headers` from the source: the upstream
status line verbatim, the upstream header lines minus empty lines and minus
the six reserved names, then the same gateway tail as `build_response`. -/
def rebuild_response_with_extra_headers (variant : List Char)
    (head body workload : List Char)
    (extra_headers : List (List Char × List Char)) : Except String (List Char) :=
  match splitCRLF head with
  | [] => .error "missing status line"
  | status :: lines =>
    .ok (status ++ crlf ++
      lines.foldr (fun line acc =>
          if line = [] then acc
          else if isRespDroppedLine line then acc
          else line ++ crlf ++ acc) [] ++
      ("X-Gateway-Variant: ".toList ++ variant ++ crlf) ++
      ("X-Gateway-Workload: ".toList ++ workload ++ crlf) ++
      (extra_headers.foldr (fun nv acc => nv.1 ++ ": ".toList ++ nv.2 ++ crlf ++ acc) []) ++
      ("Content-Length: ".toList ++ natDigs body.length ++ crlf) ++
      ("Connection: close".toList ++ crlf ++ crlf) ++ body)

/-- The header lines corresponding to caller-supplied extra headers. -/
def extraLines (extra : List (List Char × List Char)) : List (List Char) :=
  extra.map (fun nv => nv.1 ++ ": ".toList ++ nv.2)

/-- The head lines (status line first) of a `rebuild_response_with_extra_headers`
output, as a list. -/
def rebuildHeadLines (variant : List Char) (head body workload : List Char)
    (extra : List (List Char × List Char)) : List (List Char) :=
  firstLine head ::
    ((headerLines head).filter (fun l => !(l = []) && !isRespDroppedLine l) ++
      ["X-Gateway-Variant: ".toList ++ variant,
       "X-Gateway-Workload: ".toList ++ workload] ++
      extraLines extra ++
      ["Content-Length: ".toList ++ natDigs body.length,
       "Connection: close".toList])

/-- The head lines (status line first) of a `build_response` output. -/
def buildHeadLines (variant : List Char) (status_line body workload : List Char)
    (content_type : Option (List Char))
    (extra : List (List Char × List Char)) : List (List Char) :=
  status_line ::
    ((match content_type with
        | some ct => ["Content-Type: ".toList ++ ct]
        | none => []) ++
      ["X-Gateway-Variant: ".toList ++ variant,
       "X-Gateway-Workload: ".toList ++ workload] ++
      extraLines extra ++
      ["Content-Length: ".toList ++ natDigs body.length,
       "Connection: close".toList])

/-- Does `line` carry the header name `name` (given with its trailing
colon), compared case-insensitively the way the source filters do? -/
def isHeaderNamed (name l : List Char) : Bool := name.isPrefixOf (lowerStr l)

theorem lowerStr_append (a b : List Char) :
    lowerStr (a ++ b) = lowerStr a ++ lowerStr b := by
  simp [lowerStr]

theorem isPrefixOf_append_left {p a : List Char} (b : List Char)
    (h : p.isPrefixOf a = true) : p.isPrefixOf (a ++ b) = true := by
  rw [List.isPrefixOf_iff_prefix] at h ⊢
  exact h.trans (List.prefix_append a b)

theorem not_isPrefixOf_append {p a : List Char} (b : List Char)
    (h1 : p.isPrefixOf a = false) (h2 : a.isPrefixOf p = false) :
    p.isPrefixOf (a ++ b) = false := by
  rw [Bool.eq_false_iff] at h1 h2 ⊢
  intro hp
  rw [List.isPrefixOf_iff_prefix] at hp
  by_cases hl : p.length ≤ a.length
  · exact h1 (List.isPrefixOf_iff_prefix.mpr
      (List.prefix_of_prefix_length_le hp (List.prefix_append a b) hl))
  · exact h2 (List.isPrefixOf_iff_prefix.mpr
      (List.prefix_of_prefix_length_le (List.prefix_append a b) hp (by omega)))

theorem isHeaderNamed_fixed_false (name fixed v : List Char)
    (h1 : name.isPrefixOf (lowerStr fixed) = false)
    (h2 : (lowerStr fixed).isPrefixOf name = false) :
    isHeaderNamed name (fixed ++ v) = false := by
  unfold isHeaderNamed
  rw [lowerStr_append]
  exact not_isPrefixOf_append _ h1 h2

theorem isHeaderNamed_fixed_true (name fixed v : List Char)
    (h : name.isPrefixOf (lowerStr fixed) = true) :
    isHeaderNamed name (fixed ++ v) = true := by
  unfold isHeaderNamed
  rw [lowerStr_append]
  exact isPrefixOf_append_left _ h

theorem extraFold_eq_joinCRLF (extra : List (List Char × List Char)) :
    extra.foldr (fun nv acc => nv.1 ++ ": ".toList ++ nv.2 ++ crlf ++ acc) [] =
      joinCRLF (extraLines extra) := by
  induction extra with
  | nil => rfl
  | cons nv rest ih =>
    simp [extraLines, joinCRLF_cons, List.append_assoc] at ih ⊢
    simp [ih]

theorem rebuild_response_eq_joinCRLF (variant : List Char)
    (head body workload : List Char) (extra : List (List Char × List Char)) :
    rebuild_response_with_extra_headers variant head body workload extra =
      .ok (joinCRLF (rebuildHeadLines variant head body workload extra) ++
        crlf ++ body) := by
  unfold rebuild_response_with_extra_headers
  rw [splitCRLF_eq_cons head]
  dsimp only
  rw [foldr_filter_joinCRLF, extraFold_eq_joinCRLF]
  unfold rebuildHeadLines
  rw [joinCRLF_cons, joinCRLF_append, joinCRLF_append, joinCRLF_append]
  simp [joinCRLF, List.append_assoc]

theorem build_response_eq_joinCRLF (variant : List Char)
    (status_line body workload : List Char) (content_type : Option (List Char))
    (extra : List (List Char × List Char)) :
    build_response variant status_line body workload content_type extra =
      joinCRLF (buildHeadLines variant status_line body workload content_type extra) ++
        crlf ++ body := by
  unfold build_response buildHeadLines
  rw [extraFold_eq_joinCRLF, joinCRLF_cons, joinCRLF_append, joinCRLF_append,
    joinCRLF_append]
  cases content_type with
  | none => simp [joinCRLF, List.append_assoc]
  | some ct => simp [joinCRLF, List.append_assoc]

/-- The `proxy_headers` vector `handle_client` passes on the proxy path. -/
def proxyExtras (url st : List Char) : List (List Char × List Char) :=
  [("X-Upstream-Url".toList, url), ("X-Upstream-Status".toList, st)]

theorem mem_respFiltered_not_named (name : List Char)
    (hname : ∀ l : List Char, isHeaderNamed name l = true → isRespDroppedLine l = true)
    (L : List (List Char)) (l : List Char)
    (hl : l ∈ L.filter (fun l => !(l = []) && !isRespDroppedLine l)) :
    isHeaderNamed name l = false := by
  have h2 := List.of_mem_filter hl
  simp only [Bool.and_eq_true, Bool.not_eq_true'] at h2
  cases h : isHeaderNamed name l
  · rfl
  · rw [hname l h] at h2
    exact absurd h2.2 (by simp)

theorem filter_parts (name : List Char) (P G : List (List Char))
    (hP : ∀ l ∈ P, isHeaderNamed name l = false) :
    (P ++ G).filter (isHeaderNamed name) = G.filter (isHeaderNamed name) := by
  rw [List.filter_append, List.filter_eq_nil_iff.mpr ?_, List.nil_append]
  intro a ha
  simp [hP a ha]

theorem countP_parts (name : List Char) (P G : List (List Char))
    (hP : ∀ l ∈ P, isHeaderNamed name l = false) :
    (P ++ G).countP (isHeaderNamed name) = G.countP (isHeaderNamed name) := by
  rw [List.countP_append, List.countP_eq_zero.mpr ?_, Nat.zero_add]
  intro a ha
  simp [hP a ha]

theorem dropped_of_named_cl (l : List Char)
    (h : isHeaderNamed ("content-length:".toList) l = true) :
    isRespDroppedLine l = true := by
  simp only [isHeaderNamed] at h
  simp only [isRespDroppedLine, Bool.or_eq_true]
  exact Or.inl (Or.inl (Or.inl (Or.inl (Or.inl h))))

theorem dropped_of_named_conn (l : List Char)
    (h : isHeaderNamed ("connection:".toList) l = true) :
    isRespDroppedLine l = true := by
  simp only [isHeaderNamed] at h
  simp only [isRespDroppedLine, Bool.or_eq_true]
  exact Or.inl (Or.inl (Or.inl (Or.inl (Or.inr h))))

theorem dropped_of_named_xgv (l : List Char)
    (h : isHeaderNamed ("x-gateway-variant:".toList) l = true) :
    isRespDroppedLine l = true := by
  simp only [isHeaderNamed] at h
  simp only [isRespDroppedLine, Bool.or_eq_true]
  exact Or.inl (Or.inl (Or.inl (Or.inr h)))

theorem dropped_of_named_xgw (l : List Char)
    (h : isHeaderNamed ("x-gateway-workload:".toList) l = true) :
    isRespDroppedLine l = true := by
  simp only [isHeaderNamed] at h
  simp only [isRespDroppedLine, Bool.or_eq_true]
  exact Or.inl (Or.inl (Or.inr h))

theorem dropped_of_named_xuu (l : List Char)
    (h : isHeaderNamed ("x-upstream-url:".toList) l = true) :
    isRespDroppedLine l = true := by
  simp only [isHeaderNamed] at h
  simp only [isRespDroppedLine, Bool.or_eq_true]
  exact Or.inl (Or.inr h)

theorem dropped_of_named_xus (l : List Char)
    (h : isHeaderNamed ("x-upstream-status:".toList) l = true) :
    isRespDroppedLine l = true := by
  simp only [isHeaderNamed] at h
  simp only [isRespDroppedLine, Bool.or_eq_true]
  exact Or.inr h

theorem rebuild_tail_eq (variant head body workload url st : List Char) :
    (rebuildHeadLines variant head body workload (proxyExtras url st)).tail =
      (headerLines head).filter (fun l => !(l = []) && !isRespDroppedLine l) ++
        (("X-Gateway-Variant: ".toList ++ variant) ::
          ("X-Gateway-Workload: ".toList ++ workload) ::
          ("X-Upstream-Url".toList ++ ": ".toList ++ url) ::
          ("X-Upstream-Status".toList ++ ": ".toList ++ st) ::
          ("Content-Length: ".toList ++ natDigs body.length) ::
          ["Connection: close".toList]) := by
  simp [rebuildHeadLines, proxyExtras, extraLines]

theorem build_tail_eq (variant status_line body workload : List Char)
    (ct : Option (List Char)) :
    (buildHeadLines variant status_line body workload ct []).tail =
      (match ct with
        | some c => ["Content-Type: ".toList ++ c]
        | none => []) ++
        (("X-Gateway-Variant: ".toList ++ variant) ::
          ("X-Gateway-Workload: ".toList ++ workload) ::
          ("Content-Length: ".toList ++ natDigs body.length) ::
          ["Connection: close".toList]) := by
  cases ct with
  | none => simp [buildHeadLines, extraLines]
  | some c => simp [buildHeadLines, extraLines]

/-- C2: every response the gateway emits — `rebuild_response_with_extra_headers`
with the proxy extra headers, or `build_response` as invoked with no extras —
serializes its head-line list followed by the terminator and the body, and
among the header lines (after the status line) there is exactly one
`Content-Length`, whose value is the final body's byte length, exactly one
`Connection` line reading `Connection: close`, and at most one line named
with each gateway/diagnostic header, whatever lines the upstream head
supplied. -/
theorem response_header_ownership
    (variant head body workload status_line : List Char)
    (content_type : Option (List Char)) (url st : List Char) :
    (rebuild_response_with_extra_headers variant head body workload
        (proxyExtras url st) =
      .ok (joinCRLF (rebuildHeadLines variant head body workload
        (proxyExtras url st)) ++ crlf ++ body)) ∧
    ((rebuildHeadLines variant head body workload (proxyExtras url st)).tail.filter
        (isHeaderNamed ("content-length:".toList)) =
      ["Content-Length: ".toList ++ natDigs body.length]) ∧
    ((rebuildHeadLines variant head body workload (proxyExtras url st)).tail.filter
        (isHeaderNamed ("connection:".toList)) =
      ["Connection: close".toList]) ∧
    ((rebuildHeadLines variant head body workload (proxyExtras url st)).tail.countP
        (isHeaderNamed ("x-gateway-variant:".toList)) ≤ 1) ∧
    ((rebuildHeadLines variant head body workload (proxyExtras url st)).tail.countP
        (isHeaderNamed ("x-gateway-workload:".toList)) ≤ 1) ∧
    ((rebuildHeadLines variant head body workload (proxyExtras url st)).tail.countP
        (isHeaderNamed ("x-upstream-url:".toList)) ≤ 1) ∧
    ((rebuildHeadLines variant head body workload (proxyExtras url st)).tail.countP
        (isHeaderNamed ("x-upstream-status:".toList)) ≤ 1) ∧
    (build_response variant status_line body workload content_type [] =
      joinCRLF (buildHeadLines variant status_line body workload content_type []) ++
        crlf ++ body) ∧
    ((buildHeadLines variant status_line body workload content_type []).tail.filter
        (isHeaderNamed ("content-length:".toList)) =
      ["Content-Length: ".toList ++ natDigs body.length]) ∧
    ((buildHeadLines variant status_line body workload content_type []).tail.filter
        (isHeaderNamed ("connection:".toList)) =
      ["Connection: close".toList]) ∧
    ((buildHeadLines variant status_line body workload content_type []).tail.countP
        (isHeaderNamed ("x-gateway-variant:".toList)) ≤ 1) ∧
    ((buildHeadLines variant status_line body workload content_type []).tail.countP
        (isHeaderNamed ("x-gateway-workload:".toList)) ≤ 1) ∧
    ((buildHeadLines variant status_line body workload content_type []).tail.countP
        (isHeaderNamed ("x-upstream-url:".toList)) ≤ 1) ∧
    ((buildHeadLines variant status_line body workload content_type []).tail.countP
        (isHeaderNamed ("x-upstream-status:".toList)) ≤ 1) := by
  have hct : ∀ name : List Char,
      (∀ c : List Char, isHeaderNamed name ("Content-Type: ".toList ++ c) = false) →
      ∀ l ∈ (match content_type with
          | some c => ["Content-Type: ".toList ++ c]
          | none => ([] : List (List Char))), isHeaderNamed name l = false := by
    intro name hn l hl
    cases content_type with
    | none => simp at hl
    | some c =>
      simp only [List.mem_singleton] at hl
      subst hl
      exact hn c
  refine ⟨rebuild_response_eq_joinCRLF variant head body workload (proxyExtras url st),
    ?_, ?_, ?_, ?_, ?_, ?_,
    build_response_eq_joinCRLF variant status_line body workload content_type [],
    ?_, ?_, ?_, ?_, ?_, ?_⟩
  · rw [rebuild_tail_eq, filter_parts _ _ _
      (fun l hl => mem_respFiltered_not_named _ dropped_of_named_cl _ l hl)]
    have b1 : isHeaderNamed ("content-length:".toList)
        ("X-Gateway-Variant: ".toList ++ variant) = false :=
      isHeaderNamed_fixed_false _ _ _ (by decide) (by decide)
    have b2 : isHeaderNamed ("content-length:".toList)
        ("X-Gateway-Workload: ".toList ++ workload) = false :=
      isHeaderNamed_fixed_false _ _ _ (by decide) (by decide)
    have b3 : isHeaderNamed ("content-length:".toList)
        ("X-Upstream-Url".toList ++ ": ".toList ++ url) = false :=
      isHeaderNamed_fixed_false _ _ _ (by decide) (by decide)
    have b4 : isHeaderNamed ("content-length:".toList)
        ("X-Upstream-Status".toList ++ ": ".toList ++ st) = false :=
      isHeaderNamed_fixed_false _ _ _ (by decide) (by decide)
    have b5 : isHeaderNamed ("content-length:".toList)
        ("Content-Length: ".toList ++ natDigs body.length) = true :=
      isHeaderNamed_fixed_true _ _ _ (by decide)
    have b6 : isHeaderNamed ("content-length:".toList)
        ("Connection: close".toList) = false := by decide
    simp only [List.filter_cons, List.filter_nil, b1, b2, b3, b4, b5, b6]
    simp
  · rw [rebuild_tail_eq, filter_parts _ _ _
      (fun l hl => mem_respFiltered_not_named _ dropped_of_named_conn _ l hl)]
    have b1 : isHeaderNamed ("connection:".toList)
        ("X-Gateway-Variant: ".toList ++ variant) = false :=
      isHeaderNamed_fixed_false _ _ _ (by decide) (by decide)
    have b2 : isHeaderNamed ("connection:".toList)
        ("X-Gateway-Workload: ".toList ++ workload) = false :=
      isHeaderNamed_fixed_false _ _ _ (by decide) (by decide)
    have b3 : isHeaderNamed ("connection:".toList)
        ("X-Upstream-Url".toList ++ ": ".toList ++ url) = false :=
      isHeaderNamed_fixed_false _ _ _ (by decide) (by decide)
    have b4 : isHeaderNamed ("connection:".toList)
        ("X-Upstream-Status".toList ++ ": ".toList ++ st) = false :=
      isHeaderNamed_fixed_false _ _ _ (by decide) (by decide)
    have b5 : isHeaderNamed ("connection:".toList)
        ("Content-Length: ".toList ++ natDigs body.length) = false :=
      isHeaderNamed_fixed_false _ _ _ (by decide) (by decide)
    have b6 : isHeaderNamed ("connection:".toList)
        ("Connection: close".toList) = true := by decide
    simp only [List.filter_cons, List.filter_nil, b1, b2, b3, b4, b5, b6]
    simp
  · rw [rebuild_tail_eq, countP_parts _ _ _
      (fun l hl => mem_respFiltered_not_named _ dropped_of_named_xgv _ l hl)]
    have b1 : isHeaderNamed ("x-gateway-variant:".toList)
        ("X-Gateway-Variant: ".toList ++ variant) = true :=
      isHeaderNamed_fixed_true _ _ _ (by decide)
    have b2 : isHeaderNamed ("x-gateway-variant:".toList)
        ("X-Gateway-Workload: ".toList ++ workload) = false :=
      isHeaderNamed_fixed_false _ _ _ (by decide) (by decide)
    have b3 : isHeaderNamed ("x-gateway-variant:".toList)
        ("X-Upstream-Url".toList ++ ": ".toList ++ url) = false :=
      isHeaderNamed_fixed_false _ _ _ (by decide) (by decide)
    have b4 : isHeaderNamed ("x-gateway-variant:".toList)
        ("X-Upstream-Status".toList ++ ": ".toList ++ st) = false :=
      isHeaderNamed_fixed_false _ _ _ (by decide) (by decide)
    have b5 : isHeaderNamed ("x-gateway-variant:".toList)
        ("Content-Length: ".toList ++ natDigs body.length) = false :=
      isHeaderNamed_fixed_false _ _ _ (by decide) (by decide)
    have b6 : isHeaderNamed ("x-gateway-variant:".toList)
        ("Connection: close".toList) = false := by decide
    simp only [List.countP_cons, List.countP_nil, b1, b2, b3, b4, b5, b6]
    simp
  · rw [rebuild_tail_eq, countP_parts _ _ _
      (fun l hl => mem_respFiltered_not_named _ dropped_of_named_xgw _ l hl)]
    have b1 : isHeaderNamed ("x-gateway-workload:".toList)
        ("X-Gateway-Variant: ".toList ++ variant) = false :=
      isHeaderNamed_fixed_false _ _ _ (by decide) (by decide)
    have b2 : isHeaderNamed ("x-gateway-workload:".toList)
        ("X-Gateway-Workload: ".toList ++ workload) = true :=
      isHeaderNamed_fixed_true _ _ _ (by decide)
    have b3 : isHeaderNamed ("x-gateway-workload:".toList)
        ("X-Upstream-Url".toList ++ ": ".toList ++ url) = false :=
      isHeaderNamed_fixed_false _ _ _ (by decide) (by decide)
    have b4 : isHeaderNamed ("x-gateway-workload:".toList)
        ("X-Upstream-Status".toList ++ ": ".toList ++ st) = false :=
      isHeaderNamed_fixed_false _ _ _ (by decide) (by decide)
    have b5 : isHeaderNamed ("x-gateway-workload:".toList)
        ("Content-Length: ".toList ++ natDigs body.length) = false :=
      isHeaderNamed_fixed_false _ _ _ (by decide) (by decide)
    have b6 : isHeaderNamed ("x-gateway-workload:".toList)
        ("Connection: close".toList) = false := by decide
    simp only [List.countP_cons, List.countP_nil, b1, b2, b3, b4, b5, b6]
    simp
  · rw [rebuild_tail_eq, countP_parts _ _ _
      (fun l hl => mem_respFiltered_not_named _ dropped_of_named_xuu _ l hl)]
    have b1 : isHeaderNamed ("x-upstream-url:".toList)
        ("X-Gateway-Variant: ".toList ++ variant) = false :=
      isHeaderNamed_fixed_false _ _ _ (by decide) (by decide)
    have b2 : isHeaderNamed ("x-upstream-url:".toList)
        ("X-Gateway-Workload: ".toList ++ workload) = false :=
      isHeaderNamed_fixed_false _ _ _ (by decide) (by decide)
    have b3 : isHeaderNamed ("x-upstream-url:".toList)
        ("X-Upstream-Url".toList ++ ": ".toList ++ url) = true :=
      isHeaderNamed_fixed_true _ _ _ (by decide)
    have b4 : isHeaderNamed ("x-upstream-url:".toList)
        ("X-Upstream-Status".toList ++ ": ".toList ++ st) = false :=
      isHeaderNamed_fixed_false _ _ _ (by decide) (by decide)
    have b5 : isHeaderNamed ("x-upstream-url:".toList)
        ("Content-Length: ".toList ++ natDigs body.length) = false :=
      isHeaderNamed_fixed_false _ _ _ (by decide) (by decide)
    have b6 : isHeaderNamed ("x-upstream-url:".toList)
        ("Connection: close".toList) = false := by decide
    simp only [List.countP_cons, List.countP_nil, b1, b2, b3, b4, b5, b6]
    simp
  · rw [rebuild_tail_eq, countP_parts _ _ _
      (fun l hl => mem_respFiltered_not_named _ dropped_of_named_xus _ l hl)]
    have b1 : isHeaderNamed ("x-upstream-status:".toList)
        ("X-Gateway-Variant: ".toList ++ variant) = false :=
      isHeaderNamed_fixed_false _ _ _ (by decide) (by decide)
    have b2 : isHeaderNamed ("x-upstream-status:".toList)
        ("X-Gateway-Workload: ".toList ++ workload) = false :=
      isHeaderNamed_fixed_false _ _ _ (by decide) (by decide)
    have b3 : isHeaderNamed ("x-upstream-status:".toList)
        ("X-Upstream-Url".toList ++ ": ".toList ++ url) = false :=
      isHeaderNamed_fixed_false _ _ _ (by decide) (by decide)
    have b4 : isHeaderNamed ("x-upstream-status:".toList)
        ("X-Upstream-Status".toList ++ ": ".toList ++ st) = true :=
      isHeaderNamed_fixed_true _ _ _ (by decide)
    have b5 : isHeaderNamed ("x-upstream-status:".toList)
        ("Content-Length: ".toList ++ natDigs body.length) = false :=
      isHeaderNamed_fixed_false _ _ _ (by decide) (by decide)
    have b6 : isHeaderNamed ("x-upstream-status:".toList)
        ("Connection: close".toList) = false := by decide
    simp only [List.countP_cons, List.countP_nil, b1, b2, b3, b4, b5, b6]
    simp
  · rw [build_tail_eq, filter_parts _ _ _
      (hct _ (fun c => isHeaderNamed_fixed_false _ _ _ (by decide) (by decide)))]
    have b1 : isHeaderNamed ("content-length:".toList)
        ("X-Gateway-Variant: ".toList ++ variant) = false :=
      isHeaderNamed_fixed_false _ _ _ (by decide) (by decide)
    have b2 : isHeaderNamed ("content-length:".toList)
        ("X-Gateway-Workload: ".toList ++ workload) = false :=
      isHeaderNamed_fixed_false _ _ _ (by decide) (by decide)
    have b5 : isHeaderNamed ("content-length:".toList)
        ("Content-Length: ".toList ++ natDigs body.length) = true :=
      isHeaderNamed_fixed_true _ _ _ (by decide)
    have b6 : isHeaderNamed ("content-length:".toList)
        ("Connection: close".toList) = false := by decide
    simp only [List.filter_cons, List.filter_nil, b1, b2, b5, b6]
    simp
  · rw [build_tail_eq, filter_parts _ _ _
      (hct _ (fun c => isHeaderNamed_fixed_false _ _ _ (by decide) (by decide)))]
    have b1 : isHeaderNamed ("connection:".toList)
        ("X-Gateway-Variant: ".toList ++ variant) = false :=
      isHeaderNamed_fixed_false _ _ _ (by decide) (by decide)
    have b2 : isHeaderNamed ("connection:".toList)
        ("X-Gateway-Workload: ".toList ++ workload) = false :=
      isHeaderNamed_fixed_false _ _ _ (by decide) (by decide)
    have b5 : isHeaderNamed ("connection:".toList)
        ("Content-Length: ".toList ++ natDigs body.length) = false :=
      isHeaderNamed_fixed_false _ _ _ (by decide) (by decide)
    have b6 : isHeaderNamed ("connection:".toList)
        ("Connection: close".toList) = true := by decide
    simp only [List.filter_cons, List.filter_nil, b1, b2, b5, b6]
    simp
  · rw [build_tail_eq, countP_parts _ _ _
      (hct _ (fun c => isHeaderNamed_fixed_false _ _ _ (by decide) (by decide)))]
    have b1 : isHeaderNamed ("x-gateway-variant:".toList)
        ("X-Gateway-Variant: ".toList ++ variant) = true :=
      isHeaderNamed_fixed_true _ _ _ (by decide)
    have b2 : isHeaderNamed ("x-gateway-variant:".toList)
        ("X-Gateway-Workload: ".toList ++ workload) = false :=
      isHeaderNamed_fixed_false _ _ _ (by decide) (by decide)
    have b5 : isHeaderNamed ("x-gateway-variant:".toList)
        ("Content-Length: ".toList ++ natDigs body.length) = false :=
      isHeaderNamed_fixed_false _ _ _ (by decide) (by decide)
    have b6 : isHeaderNamed ("x-gateway-variant:".toList)
        ("Connection: close".toList) = false := by decide
    simp only [List.countP_cons, List.countP_nil, b1, b2, b5, b6]
    simp
  · rw [build_tail_eq, countP_parts _ _ _
      (hct _ (fun c => isHeaderNamed_fixed_false _ _ _ (by decide) (by decide)))]
    have b1 : isHeaderNamed ("x-gateway-workload:".toList)
        ("X-Gateway-Variant: ".toList ++ variant) = false :=
      isHeaderNamed_fixed_false _ _ _ (by decide) (by decide)
    have b2 : isHeaderNamed ("x-gateway-workload:".toList)
        ("X-Gateway-Workload: ".toList ++ workload) = true :=
      isHeaderNamed_fixed_true _ _ _ (by decide)
    have b5 : isHeaderNamed ("x-gateway-workload:".toList)
        ("Content-Length: ".toList ++ natDigs body.length) = false :=
      isHeaderNamed_fixed_false _ _ _ (by decide) (by decide)
    have b6 : isHeaderNamed ("x-gateway-workload:".toList)
        ("Connection: close".toList) = false := by decide
    simp only [List.countP_cons, List.countP_nil, b1, b2, b5, b6]
    simp
  · rw [build_tail_eq, countP_parts _ _ _
      (hct _ (fun c => isHeaderNamed_fixed_false _ _ _ (by decide) (by decide)))]
    have b1 : isHeaderNamed ("x-upstream-url:".toList)
        ("X-Gateway-Variant: ".toList ++ variant) = false :=
      isHeaderNamed_fixed_false _ _ _ (by decide) (by decide)
    have b2 : isHeaderNamed ("x-upstream-url:".toList)
        ("X-Gateway-Workload: ".toList ++ workload) = false :=
      isHeaderNamed_fixed_false _ _ _ (by decide) (by decide)
    have b5 : isHeaderNamed ("x-upstream-url:".toList)
        ("Content-Length: ".toList ++ natDigs body.length) = false :=
      isHeaderNamed_fixed_false _ _ _ (by decide) (by decide)
    have b6 : isHeaderNamed ("x-upstream-url:".toList)
        ("Connection: close".toList) = false := by decide
    simp only [List.countP_cons, List.countP_nil, b1, b2, b5, b6]
    simp
  · rw [build_tail_eq, countP_parts _ _ _
      (hct _ (fun c => isHeaderNamed_fixed_false _ _ _ (by decide) (by decide)))]
    have b1 : isHeaderNamed ("x-upstream-status:".toList)
        ("X-Gateway-Variant: ".toList ++ variant) = false :=
      isHeaderNamed_fixed_false _ _ _ (by decide) (by decide)
    have b2 : isHeaderNamed ("x-upstream-status:".toList)
        ("X-Gateway-Workload: ".toList ++ workload) = false :=
      isHeaderNamed_fixed_false _ _ _ (by decide) (by decide)
    have b5 : isHeaderNamed ("x-upstream-status:".toList)
        ("Content-Length: ".toList ++ natDigs body.length) = false :=
      isHeaderNamed_fixed_false _ _ _ (by decide) (by decide)
    have b6 : isHeaderNamed ("x-upstream-status:".toList)
        ("Connection: close".toList) = false := by decide
    simp only [List.countP_cons, List.countP_nil, b1, b2, b5, b6]
    simp

/-- `split_http_response` from the source: splits a raw response at the
first head terminator. -/
def split_http_response (resp : List Char) : Except String (List Char × List Char) :=
  match find_double_crlf resp with
  | none => .error "invalid upstream response"
  | some header_end => .ok (resp.take header_end, resp.drop (header_end + 4))

/-- The transform of `gateway_wasm/src/main.rs` (the `wasm_transform`
payload function): reads the whole input and prepends the bytes `wasm:`. -/
def wasm_transform (input : List Char) : List Char := "wasm:".toList ++ input

/-- Does a byte sequence contain a CRLF pair? -/
def hasCRLF : List Char → Bool
  | '\r' :: '\n' :: _ => true
  | _ :: rest => hasCRLF rest
  | [] => false

theorem hasCRLF_cons (c : Char) (t : List Char) :
    hasCRLF (c :: t) =
      ((c = '\r' : Bool) && (t.head? = some '\n' : Bool) || hasCRLF t) := by
  rw [hasCRLF.eq_def]
  split
  · rename_i rest heq
    obtain ⟨rfl, rfl⟩ : c = '\r' ∧ t = '\n' :: rest := by
      injection heq with h1 h2
      exact ⟨h1, h2⟩
    simp [hasCRLF]
  · rename_i c' rest hexcl heq
    obtain ⟨rfl, rfl⟩ : c = c' ∧ t = rest := by
      injection heq with h1 h2
      exact ⟨h1, h2⟩
    by_cases hc : c = '\r'
    · subst hc
      cases t with
      | nil => simp
      | cons d t' =>
        have hd : d ≠ '\n' := fun hd => hexcl t' rfl (by rw [hd])
        simp [hd]
    · simp [hc]
  · rename_i heq
    exact absurd heq (by simp)

theorem hasCRLF_append (a b : List Char) :
    hasCRLF (a ++ b) =
      (hasCRLF a ||
        ((a.getLast? = some '\r' : Bool) && (b.head? = some '\n' : Bool)) ||
        hasCRLF b) := by
  induction a with
  | nil => simp [hasCRLF]
  | cons x a ih =>
    rw [List.cons_append, hasCRLF_cons, ih, hasCRLF_cons]
    cases a with
    | nil => simp [hasCRLF]
    | cons y a' =>
      simp only [List.cons_append, List.head?_cons, List.getLast?_cons_cons]
      cases hx : (x = '\r' : Bool) <;> cases hy : (y = '\n' : Bool) <;> simp [hx, hy]

theorem hasCRLF_of_no_cr (l : List Char) (h : ∀ c ∈ l, c ≠ '\r') :
    hasCRLF l = false := by
  induction l with
  | nil => rfl
  | cons c t ih =>
    rw [hasCRLF_cons, ih (fun d hd => h d (by simp [hd]))]
    have : c ≠ '\r' := h c (by simp)
    simp [this]

theorem digitChar_ne_cr (n : Nat) (h : n < 10) : Nat.digitChar n ≠ '\r' := by
  interval_cases n <;> decide

theorem toDigitsCore_ne_cr (fuel : Nat) :
    ∀ (n : Nat) (ds : List Char), (∀ c ∈ ds, c ≠ '\r') →
      ∀ c ∈ Nat.toDigitsCore 10 fuel n ds, c ≠ '\r' := by
  induction fuel with
  | zero => intro n ds hds c hc; exact hds c hc
  | succ fuel ih =>
    intro n ds hds c hc
    rw [Nat.toDigitsCore] at hc
    by_cases hz : n / 10 = 0
    · rw [if_pos hz] at hc
      rcases List.mem_cons.mp hc with rfl | hmem
      · exact digitChar_ne_cr _ (Nat.mod_lt _ (by norm_num))
      · exact hds c hmem
    · rw [if_neg hz] at hc
      refine ih (n / 10) _ ?_ c hc
      intro d hd
      rcases List.mem_cons.mp hd with rfl | hmem
      · exact digitChar_ne_cr _ (Nat.mod_lt _ (by norm_num))
      · exact hds d hmem

theorem natDigs_no_crlf (n : Nat) : hasCRLF (natDigs n) = false :=
  hasCRLF_of_no_cr _ (toDigitsCore_ne_cr (n + 1) n [] (by simp))

theorem splitCRLF_crlf (rest : List Char) :
    splitCRLF ('\r' :: '\n' :: rest) = [] :: splitCRLF rest := rfl

theorem splitCRLF_cons_eq (c : Char) (rest : List Char)
    (h : ∀ r : List Char, c = '\r' → rest = '\n' :: r → False) :
    splitCRLF (c :: rest) =
      match splitCRLF rest with
      | [] => [[c]]
      | p :: ps => (c :: p) :: ps := by
  rw [splitCRLF.eq_def]
  split
  · rename_i r1 heq
    obtain ⟨h1, h2⟩ : c = '\r' ∧ rest = '\n' :: r1 := by
      injection heq with ha hb
      exact ⟨ha, hb⟩
    exact (h r1 h1 h2).elim
  · rename_i c' rest' hexcl heq
    obtain ⟨rfl, rfl⟩ : c = c' ∧ rest = rest' := by
      injection heq with ha hb
      exact ⟨ha, hb⟩
    rfl
  · rename_i heq
    exact absurd heq (by simp)

theorem splitCRLF_head_prefix :
    ∀ (s p : List Char) (ps : List (List Char)), splitCRLF s = p :: ps → p <+: s := by
  intro s
  induction s using splitCRLF.induct with
  | case1 rest ih =>
    intro p ps h
    rw [splitCRLF_crlf] at h
    obtain ⟨rfl, -⟩ : p = [] ∧ ps = splitCRLF rest := by
      injection h with h1 h2
      exact ⟨h1.symm, h2.symm⟩
    exact List.nil_prefix
  | case2 c rest hne h0 ih => exact absurd h0 (splitCRLF_ne_nil rest)
  | case3 c rest hne q qs hq ih =>
    intro p ps h
    rw [splitCRLF_cons_eq c rest (fun r hc hr => hne r hc hr), hq] at h
    obtain ⟨rfl, -⟩ : p = c :: q ∧ ps = qs := by
      injection h with h1 h2
      exact ⟨h1.symm, h2.symm⟩
    obtain ⟨t, ht⟩ := ih q qs hq
    exact ⟨t, by rw [List.cons_append, ht]⟩
  | case4 =>
    intro p ps h
    obtain ⟨rfl, -⟩ : p = [] ∧ ps = [] := by
      injection h with h1 h2
      exact ⟨h1.symm, h2.symm⟩
    exact List.nil_prefix

theorem splitCRLF_pieces_no_crlf :
    ∀ (s : List Char), ∀ p ∈ splitCRLF s, hasCRLF p = false := by
  intro s
  induction s using splitCRLF.induct with
  | case1 rest ih =>
    intro p hp
    rw [splitCRLF_crlf] at hp
    rcases List.mem_cons.mp hp with rfl | hmem
    · rfl
    · exact ih p hmem
  | case2 c rest hne h0 ih => exact absurd h0 (splitCRLF_ne_nil rest)
  | case3 c rest hne q qs hq ih =>
    intro p hp
    rw [splitCRLF_cons_eq c rest (fun r hc hr => hne r hc hr), hq] at hp
    rcases List.mem_cons.mp hp with rfl | hmem
    · rw [hasCRLF_cons, ih q (by rw [hq]; simp)]
      by_cases hc : c = '\r'
      · subst hc
        cases hqh : q.head? with
        | none => simp [hqh]
        | some d =>
          by_cases hd : d = '\n'
          · exfalso
            subst hd
            cases q with
            | nil => simp at hqh
            | cons e q' =>
              simp only [List.head?_cons, Option.some.injEq] at hqh
              subst hqh
              obtain ⟨t, ht⟩ := splitCRLF_head_prefix rest _ _ hq
              exact hne (q' ++ t) rfl (by rw [← ht]; rfl)
          · simp [hqh, hd]
      · simp [hc]
    · exact ih p (by rw [hq]; simp [hmem])
  | case4 =>
    intro p hp
    rcases List.mem_cons.mp hp with rfl | hmem
    · rfl
    · simp at hmem

theorem find_double_crlf_cons (c : Char) (rest : List Char)
    (h : ∀ r : List Char, c = '\r' → rest = '\n' :: '\r' :: '\n' :: r → False) :
    find_double_crlf (c :: rest) = (find_double_crlf rest).map (· + 1) := by
  rw [find_double_crlf.eq_def]
  split
  · rename_i r heq
    obtain ⟨h1, h2⟩ : c = '\r' ∧ rest = '\n' :: '\r' :: '\n' :: r := by
      injection heq with ha hb
      exact ⟨ha, hb⟩
    exact (h r h1 h2).elim
  · rename_i c' rest' hexcl heq
    obtain ⟨rfl, rfl⟩ : c = c' ∧ rest = rest' := by
      injection heq with ha hb
      exact ⟨ha, hb⟩
    rfl
  · rename_i heq
    exact absurd heq (by simp)

theorem find_double_crlf_line :
    ∀ (l : List Char), l ≠ [] → hasCRLF l = false → ∀ s : List Char,
    find_double_crlf (l ++ '\r' :: '\n' :: s) =
      if crlf.isPrefixOf s then some l.length
      else (find_double_crlf s).map (· + (l.length + 2)) := by
  intro l
  induction l with
  | nil => intro h; exact absurd rfl h
  | cons c l' ih =>
    intro _ hfree s
    cases l' with
    | nil =>
      have step1 : find_double_crlf (c :: '\r' :: '\n' :: s) =
          (find_double_crlf ('\r' :: '\n' :: s)).map (· + 1) := by
        refine find_double_crlf_cons c _ (fun r hc hr => ?_)
        injection hr with ha _
        exact absurd ha (by decide)
      rw [List.cons_append, List.nil_append, step1]
      by_cases hs : crlf.isPrefixOf s
      · obtain ⟨t, ht⟩ := List.isPrefixOf_iff_prefix.mp hs
        rw [if_pos hs, ← ht]
        rfl
      · have step2 : find_double_crlf ('\r' :: '\n' :: s) =
            (find_double_crlf ('\n' :: s)).map (· + 1) := by
          refine find_double_crlf_cons _ _ (fun r hc hr => ?_)
          apply hs
          have hb : s = '\r' :: '\n' :: r := (List.cons.inj hr).2
          rw [hb]
          exact List.isPrefixOf_iff_prefix.mpr ⟨r, rfl⟩
        have step3 : find_double_crlf ('\n' :: s) =
            (find_double_crlf s).map (· + 1) := by
          refine find_double_crlf_cons _ _ (fun r hc hr => ?_)
          exact absurd hc (by decide)
        rw [step2, step3, if_neg hs]
        cases find_double_crlf s <;> simp
    | cons d l'' =>
      have hfree' : hasCRLF (d :: l'') = false := by
        rw [hasCRLF_cons] at hfree
        exact (Bool.or_eq_false_iff.mp hfree).2
      have step1 : find_double_crlf ((c :: d :: l'') ++ '\r' :: '\n' :: s) =
          (find_double_crlf ((d :: l'') ++ '\r' :: '\n' :: s)).map (· + 1) := by
        rw [List.cons_append]
        refine find_double_crlf_cons c _ (fun r hc hr => ?_)
        have hd : d = '\n' := by simpa using congrArg List.head? hr
        rw [hasCRLF_cons] at hfree
        subst hc
        subst hd
        simp at hfree
      rw [step1, ih (by simp) hfree' s]
      by_cases hs : crlf.isPrefixOf s
      · rw [if_pos hs, if_pos hs]
        simp
      · rw [if_neg hs, if_neg hs]
        cases find_double_crlf s
        · simp
        · simp
          omega

theorem crlf_not_prefix_of_line (l : List Char) (hne : l ≠ [])
    (hfree : hasCRLF l = false) (t : List Char) :
    crlf.isPrefixOf (l ++ '\r' :: t) = false := by
  rw [Bool.eq_false_iff]
  intro h
  rw [List.isPrefixOf_iff_prefix] at h
  cases l with
  | nil => exact absurd rfl hne
  | cons x l' =>
    rw [List.cons_append] at h
    rw [show crlf = '\r' :: ['\n'] from rfl, List.cons_prefix_cons] at h
    obtain ⟨hx, h2⟩ := h
    cases l' with
    | nil =>
      rw [List.nil_append, List.cons_prefix_cons] at h2
      exact absurd h2.1 (by decide)
    | cons y l'' =>
      rw [List.cons_append, List.cons_prefix_cons] at h2
      rw [hasCRLF_cons, ← hx, h2.1] at hfree
      simp at hfree

theorem joinCRLF_cons_length (a : List Char) (ls : List (List Char)) :
    (joinCRLF (a :: ls)).length = a.length + 2 + (joinCRLF ls).length := by
  simp [joinCRLF_cons, crlf]
  omega

theorem find_double_crlf_join :
    ∀ (ls : List (List Char)) (a : List Char) (b : List Char),
      a ≠ [] → hasCRLF a = false →
      (∀ l ∈ ls, l ≠ [] ∧ hasCRLF l = false) →
      find_double_crlf (joinCRLF (a :: ls) ++ '\r' :: '\n' :: b) =
        some ((joinCRLF (a :: ls)).length - 2) := by
  intro ls
  induction ls with
  | nil =>
    intro a b ha hafree _
    have hshape : joinCRLF [a] ++ '\r' :: '\n' :: b =
        a ++ '\r' :: '\n' :: ('\r' :: '\n' :: b) := by
      simp [joinCRLF, crlf]
    rw [hshape, find_double_crlf_line a ha hafree]
    rw [if_pos (by rw [List.isPrefixOf_iff_prefix]; exact ⟨b, rfl⟩)]
    rw [joinCRLF_cons_length]
    simp [joinCRLF]
  | cons l2 rest ih =>
    intro a b ha hafree hls
    have hl2 := hls l2 (by simp)
    have hshape : joinCRLF (a :: l2 :: rest) ++ '\r' :: '\n' :: b =
        a ++ '\r' :: '\n' :: (joinCRLF (l2 :: rest) ++ '\r' :: '\n' :: b) := by
      simp [joinCRLF_cons, crlf, List.append_assoc]
    rw [hshape, find_double_crlf_line a ha hafree]
    have hpre : crlf.isPrefixOf (joinCRLF (l2 :: rest) ++ '\r' :: '\n' :: b) = false := by
      have hshape2 : joinCRLF (l2 :: rest) ++ '\r' :: '\n' :: b =
          l2 ++ '\r' :: ('\n' :: (joinCRLF rest ++ '\r' :: '\n' :: b)) := by
        simp [joinCRLF_cons, crlf, List.append_assoc]
      rw [hshape2]
      exact crlf_not_prefix_of_line l2 hl2.1 hl2.2 _
    rw [if_neg (by rw [hpre]; exact Bool.false_ne_true)]
    rw [ih l2 b hl2.1 hl2.2 (fun l hl => hls l (by simp [hl]))]
    have h2 : 2 ≤ (joinCRLF (l2 :: rest)).length := by
      rw [joinCRLF_cons_length]
      omega
    have e1 : (joinCRLF (a :: l2 :: rest)).length =
        a.length + 2 + (joinCRLF (l2 :: rest)).length := joinCRLF_cons_length a _
    simp only [Option.map_some']
    congr 1
    omega

theorem split_http_response_join (a : List Char) (ls : List (List Char)) (b : List Char)
    (ha : a ≠ []) (hafree : hasCRLF a = false)
    (hls : ∀ l ∈ ls, l ≠ [] ∧ hasCRLF l = false) :
    split_http_response (joinCRLF (a :: ls) ++ crlf ++ b) =
      .ok ((joinCRLF (a :: ls) ++ crlf ++ b).take ((joinCRLF (a :: ls)).length - 2), b) := by
  have hshape : joinCRLF (a :: ls) ++ crlf ++ b =
      joinCRLF (a :: ls) ++ '\r' :: '\n' :: b := by
    simp [crlf, List.append_assoc]
  rw [split_http_response, hshape, find_double_crlf_join ls a b ha hafree hls]
  have h2 : 2 ≤ (joinCRLF (a :: ls)).length := by
    rw [joinCRLF_cons_length]
    omega
  have hdrop : (joinCRLF (a :: ls) ++ '\r' :: '\n' :: b).drop
      ((joinCRLF (a :: ls)).length - 2 + 4) = b := by
    have hlen : (joinCRLF (a :: ls)).length - 2 + 4 =
        (joinCRLF (a :: ls) ++ ['\r', '\n']).length := by
      simp
      omega
    have hshape3 : joinCRLF (a :: ls) ++ '\r' :: '\n' :: b =
        (joinCRLF (a :: ls) ++ ['\r', '\n']) ++ b := by
      simp [List.append_assoc]
    rw [hshape3, hlen, List.drop_left]
  dsimp only
  rw [hdrop, ← hshape]

theorem rebuild_proxy_body (variant head body workload url st : List Char)
    (hstatus : firstLine head ≠ [])
    (hv : hasCRLF variant = false) (hw : hasCRLF workload = false)
    (hurl : hasCRLF url = false) (hst : hasCRLF st = false) :
    ((rebuild_response_with_extra_headers variant head body workload
        (proxyExtras url st)).bind split_http_response).map Prod.snd = .ok body := by
  rw [rebuild_response_eq_joinCRLF]
  have hafree : hasCRLF (firstLine head) = false := by
    refine splitCRLF_pieces_no_crlf head _ ?_
    rw [splitCRLF_eq_cons]
    exact List.mem_cons_self _ _
  have hF : ∀ l ∈ (headerLines head).filter
      (fun l => !(l = []) && !isRespDroppedLine l), l ≠ [] ∧ hasCRLF l = false := by
    intro l hfil
    have hb := List.of_mem_filter hfil
    simp only [Bool.and_eq_true, Bool.not_eq_true'] at hb
    refine ⟨of_decide_eq_false hb.1, ?_⟩
    exact splitCRLF_pieces_no_crlf head l
      (by rw [splitCRLF_eq_cons]
          exact List.mem_cons_of_mem _ (List.mem_of_mem_filter hfil))
  have p1 : ("X-Gateway-Variant: ".toList ++ variant) ≠ [] ∧
      hasCRLF ("X-Gateway-Variant: ".toList ++ variant) = false := by
    refine ⟨by simp, ?_⟩
    rw [hasCRLF_append,
      show hasCRLF ("X-Gateway-Variant: ".toList) = false from by decide,
      show (("X-Gateway-Variant: ".toList).getLast? = some '\r' : Bool) = false from
        by decide]
    simp [hv]
  have p2 : ("X-Gateway-Workload: ".toList ++ workload) ≠ [] ∧
      hasCRLF ("X-Gateway-Workload: ".toList ++ workload) = false := by
    refine ⟨by simp, ?_⟩
    rw [hasCRLF_append,
      show hasCRLF ("X-Gateway-Workload: ".toList) = false from by decide,
      show (("X-Gateway-Workload: ".toList).getLast? = some '\r' : Bool) = false from
        by decide]
    simp [hw]
  have p3 : ("X-Upstream-Url".toList ++ ": ".toList ++ url) ≠ [] ∧
      hasCRLF ("X-Upstream-Url".toList ++ ": ".toList ++ url) = false := by
    refine ⟨by simp, ?_⟩
    rw [hasCRLF_append,
      show hasCRLF ("X-Upstream-Url".toList ++ ": ".toList) = false from by decide,
      show (("X-Upstream-Url".toList ++ ": ".toList).getLast? = some '\r' : Bool) =
        false from by decide]
    simp [hurl]
  have p4 : ("X-Upstream-Status".toList ++ ": ".toList ++ st) ≠ [] ∧
      hasCRLF ("X-Upstream-Status".toList ++ ": ".toList ++ st) = false := by
    refine ⟨by simp, ?_⟩
    rw [hasCRLF_append,
      show hasCRLF ("X-Upstream-Status".toList ++ ": ".toList) = false from by decide,
      show (("X-Upstream-Status".toList ++ ": ".toList).getLast? = some '\r' : Bool) =
        false from by decide]
    simp [hst]
  have p5 : ("Content-Length: ".toList ++ natDigs body.length) ≠ [] ∧
      hasCRLF ("Content-Length: ".toList ++ natDigs body.length) = false := by
    refine ⟨by simp, ?_⟩
    rw [hasCRLF_append,
      show hasCRLF ("Content-Length: ".toList) = false from by decide,
      show (("Content-Length: ".toList).getLast? = some '\r' : Bool) = false from
        by decide]
    simp [natDigs_no_crlf]
  have p6 : ("Connection: close".toList : List Char) ≠ [] ∧
      hasCRLF ("Connection: close".toList) = false := ⟨by simp, by decide⟩
  have hls : ∀ l ∈ ((headerLines head).filter
        (fun l => !(l = []) && !isRespDroppedLine l) ++
      ["X-Gateway-Variant: ".toList ++ variant,
       "X-Gateway-Workload: ".toList ++ workload] ++
      extraLines (proxyExtras url st) ++
      ["Content-Length: ".toList ++ natDigs body.length,
       "Connection: close".toList]), l ≠ [] ∧ hasCRLF l = false :=
    List.forall_mem_append.mpr
      ⟨List.forall_mem_append.mpr
        ⟨List.forall_mem_append.mpr
          ⟨hF, List.forall_mem_cons.mpr ⟨p1, List.forall_mem_singleton.mpr p2⟩⟩,
          List.forall_mem_cons.mpr ⟨p3, List.forall_mem_singleton.mpr p4⟩⟩,
        List.forall_mem_cons.mpr ⟨p5, List.forall_mem_singleton.mpr p6⟩⟩
  have hsplit := split_http_response_join (firstLine head) _ body hstatus hafree hls
  rw [show rebuildHeadLines variant head body workload (proxyExtras url st) =
    firstLine head :: ((headerLines head).filter
        (fun l => !(l = []) && !isRespDroppedLine l) ++
      ["X-Gateway-Variant: ".toList ++ variant,
       "X-Gateway-Workload: ".toList ++ workload] ++
      extraLines (proxyExtras url st) ++
      ["Content-Length: ".toList ++ natDigs body.length,
       "Connection: close".toList]) from rfl]
  show (split_http_response _).map Prod.snd = _
  rw [hsplit]
  rfl

/-- C4: on the proxy path, the body of the response sent to the client —
recovered from the emitted bytes by the program's own head/body splitter —
equals the upstream body byte for byte in the native gateway (identity
transform), and equals `wasm:` followed by the upstream body in the
wasm-host gateway, whose transform (`gateway_wasm`) prepends those bytes;
this holds for every upstream body. -/
theorem proxy_transform_transparency (respHead b url st : List Char)
    (hstatus : firstLine respHead ≠ [])
    (hurl : hasCRLF url = false) (hst : hasCRLF st = false) :
    ((rebuild_response_with_extra_headers nativeVariant respHead b
        ("proxy".toList) (proxyExtras url st)).bind split_http_response).map
          Prod.snd = .ok b ∧
    ((rebuild_response_with_extra_headers hostVariant respHead (wasm_transform b)
        ("proxy".toList) (proxyExtras url st)).bind split_http_response).map
          Prod.snd = .ok ("wasm:".toList ++ b) :=
  ⟨rebuild_proxy_body nativeVariant respHead b ("proxy".toList) url st
      hstatus (by decide) (by decide) hurl hst,
    rebuild_proxy_body hostVariant respHead (wasm_transform b) ("proxy".toList) url st
      hstatus (by decide) (by decide) hurl hst⟩

/-- C4 witness: a concrete upstream response round-trips through both
gateways' response rewriting. -/
theorem proxy_transform_transparency_witness :
    ((rebuild_response_with_extra_headers nativeVariant
        ("HTTP/1.1 200 OK\r\nServer: demo".toList) ("payload".toList)
        ("proxy".toList)
        (proxyExtras ("http://up:9000".toList) ("200".toList))).bind
          split_http_response).map Prod.snd = .ok ("payload".toList) ∧
    ((rebuild_response_with_extra_headers hostVariant
        ("HTTP/1.1 200 OK\r\nServer: demo".toList)
        (wasm_transform ("payload".toList)) ("proxy".toList)
        (proxyExtras ("http://up:9000".toList) ("200".toList))).bind
          split_http_response).map Prod.snd =
      .ok ("wasm:".toList ++ "payload".toList) :=
  proxy_transform_transparency ("HTTP/1.1 200 OK\r\nServer: demo".toList)
    ("payload".toList) ("http://up:9000".toList) ("200".toList)
    (by decide) (by decide) (by decide)

/-- The head-accumulation loop of `read_http_request`.  The client socket is
modelled as the list of chunks that successive `read` calls return: an
empty chunk models `n == 0` (the peer closed), and an exhausted list models
a read that never returns data, reported with the read-error context
message.  Returns the accumulated buffer and the chunks not yet consumed. -/
def readHeadLoop : List (List Char) → List Char →
    Except String (List Char × List (List Char))
  | [], _ => .error "read from client"
  | c :: rest, buf =>
    if c.length = 0 then .error "client closed before request complete"
    else
      let buf' := buf ++ c
      if MAX_HEADER_BYTES < buf'.length then .error "request headers too large"
      else if (find_double_crlf buf').isSome then .ok (buf', rest)
      else readHeadLoop rest buf'

/-- The body-accumulation loop of `read_http_request`: starting from the
bytes already read past the head terminator, reads chunks until the
accumulated body reaches `cl` bytes, truncating any excess read in the last
chunk; a close mid-body is an error. -/
def readBodyLoop (cl : Nat) : List (List Char) → List Char →
    Except String (List Char × List (List Char))
  | chunks, body =>
    if body.length < cl then
      match chunks with
      | [] => .error "read request body"
      | c :: rest =>
        if c.length = 0 then .error "client closed during body read"
        else
          let body' := body ++ c
          if cl < body'.length then .ok (body'.take cl, rest)
          else readBodyLoop cl rest body'
    else .ok (body, chunks)

/-- `read_http_request` from the source: accumulate until the head
terminator, slice off the head, parse it, enforce the 2 MiB body ceiling,
then read the body to exactly `content_length` bytes starting from the
remainder already read past the terminator.  Returns the unconsumed chunks
alongside the `(head, body)` pair (explicit socket state). -/
def read_http_request (chunks : List (List Char)) :
    Except String ((List Char × List Char) × List (List Char)) :=
  match readHeadLoop chunks [] with
  | .error e => .error e
  | .ok (buf, rest) =>
    match find_double_crlf buf with
    | none => .error "malformed headers"
    | some header_end =>
      let head := buf.take header_end
      let remainder := buf.drop (header_end + 4)
      match parse_request_head head with
      | .error e => .error e
      | .ok req =>
        if 0 < req.content_length then
          if MAX_BODY_BYTES < req.content_length then
            .error "request body too large"
          else
            match readBodyLoop req.content_length rest remainder with
            | .error e => .error e
            | .ok (body, rest') => .ok ((head, body), rest')
        else .ok ((head, []), rest)

/-- C1: the framing invariant `len(body) = content_length` FAILS.  A single
chunk carries the whole head, `Content-Length: 1`, and two bytes after the
terminator; `read_http_request` succeeds and hands back both bytes — the
pre-read remainder is copied into the body without truncation (only bytes
read inside the body loop are truncated), so the body is longer than the
declared length. -/
theorem framing_invariant_violated :
    read_http_request ["GET / HTTP/1.1\r\nContent-Length: 1\r\n\r\nab".toList] =
      .ok ((("GET / HTTP/1.1\r\nContent-Length: 1".toList), "ab".toList), []) ∧
    parse_request_head ("GET / HTTP/1.1\r\nContent-Length: 1".toList) =
      .ok ⟨"GET".toList, "/".toList, "HTTP/1.1".toList, 1⟩ ∧
    ("ab".toList).length = 2 :=
  ⟨rfl, rfl, rfl⟩

theorem readHeadLoop_append :
    ∀ (chunks : List (List Char)) (buf acc : List Char),
      readHeadLoop chunks buf = .ok (acc, []) →
      ∀ t, readHeadLoop (chunks ++ t) buf = .ok (acc, t) := by
  intro chunks
  induction chunks with
  | nil =>
    intro buf acc h
    simp [readHeadLoop] at h
  | cons c rest ih =>
    intro buf acc h t
    simp only [readHeadLoop, List.cons_append] at h ⊢
    by_cases h0 : c.length = 0
    · rw [if_pos h0] at h
      exact Except.noConfusion h
    · rw [if_neg h0] at h ⊢
      by_cases h1 : MAX_HEADER_BYTES < (buf ++ c).length
      · rw [if_pos h1] at h
        exact Except.noConfusion h
      · rw [if_neg h1] at h ⊢
        by_cases h2 : (find_double_crlf (buf ++ c)).isSome
        · rw [if_pos h2] at h ⊢
          obtain ⟨h3, h4⟩ : acc = buf ++ c ∧ rest = [] := by
            injection h with h5
            injection h5 with ha hb
            exact ⟨ha.symm, hb⟩
          subst h3
          subst h4
          rfl
        · rw [if_neg h2] at h ⊢
          exact ih _ acc h t


/-- C8: once the head-phase chunks complete the head loop with a buffer
whose parsed head declares a `content_length` above the 2 MiB request-body
ceiling, `read_http_request` fails with the body-too-large error whatever
data follows on the socket: the outcome is the same for every continuation
`t` of the stream, so no byte beyond those accumulated while locating the
head terminator is ever consumed. -/
theorem body_too_large_no_further_read
    (consumed : List (List Char)) (buf : List Char) (req : RequestLine)
    (hhead : readHeadLoop consumed [] = .ok (buf, []))
    (he : ∃ header_end, find_double_crlf buf = some header_end ∧
      parse_request_head (buf.take header_end) = .ok req)
    (hbig : MAX_BODY_BYTES < req.content_length) :
    ∀ t, read_http_request (consumed ++ t) = .error "request body too large" := by
  intro t
  obtain ⟨header_end, hfind, hparse⟩ := he
  unfold read_http_request
  rw [readHeadLoop_append consumed [] buf hhead t]
  dsimp only
  rw [hfind]
  dsimp only
  rw [hparse]
  dsimp only
  rw [if_pos (by unfold MAX_BODY_BYTES at hbig; omega), if_pos hbig]

/-- C8 witness: a head declaring `Content-Length: 3000000` (above the 2 MiB
ceiling) makes the reader fail without touching the chunks that follow. -/
theorem body_too_large_no_further_read_witness :
    read_http_request
      (["POST / HTTP/1.1\r\nContent-Length: 3000000\r\n\r\n".toList] ++
        ["extra-bytes-never-read".toList]) =
      .error "request body too large" :=
  body_too_large_no_further_read
    ["POST / HTTP/1.1\r\nContent-Length: 3000000\r\n\r\n".toList]
    ("POST / HTTP/1.1\r\nContent-Length: 3000000\r\n\r\n".toList)
    ⟨"POST".toList, "/".toList, "HTTP/1.1".toList, 3000000⟩
    (by rfl)
    ⟨40, by rfl, by rfl⟩
    (by decide)
    ["extra-bytes-never-read".toList]

end Gateway
